import Mathlib

set_option maxHeartbeats 1000000

/-!
Shallow embedding of `mailchannels2smtp` (src/main.go): the MailChannels-style
request model, the dry-run renderer, the gomail-backed send path and the HTTP
handler, together with models of the external functions the source calls
(`strconv.Atoi`, `encoding/base64` and the relevant parts of `gopkg.in/gomail.v2`).
-/

/-- Source: `EmailAddress` (main.go lines 18–21). -/
structure EmailAddress where
  name : String
  email : String
deriving DecidableEq, Repr

/-- Source: `Attachment` (main.go lines 23–27); `content` is base64 text. -/
structure Attachment where
  filename : String
  type : String
  content : String
deriving DecidableEq, Repr

/-- Source: `ContentItem` (main.go lines 29–32). -/
structure ContentItem where
  type : String
  value : String
deriving DecidableEq, Repr

/-- Source: `Personalization` (main.go lines 34–45). `to_` embeds the Go field
`To` (`to` is a registered token in Lean). The Go `Headers` field is a
`map[string]string`; it is embedded as an association list in one fixed
iteration order (Go map iteration order is unspecified). -/
structure Personalization where
  to_ : List EmailAddress
  cc : List EmailAddress
  bcc : List EmailAddress
  subject : String
  headers : List (String × String)
  dkim_domain : String
  dkim_private_key : String
  dkim_selector : String
  reply_to : Option EmailAddress
  from_ : EmailAddress
deriving DecidableEq, Repr

/-- Source: `MailSendBody` (main.go lines 47–56). `from_` embeds the Go field
`From` (`from` is a Lean keyword). -/
structure MailSendBody where
  headers : List (String × String)
  personalizations : List Personalization
  attachments : List Attachment
  reply_to : Option EmailAddress
  subject : String
  from_ : EmailAddress
  mailfrom : Option EmailAddress
  content : List ContentItem
deriving DecidableEq, Repr

/-- Models one MIME part of a gomail message (gomail.v2 `part`): content type
and body text. -/
structure GoPart where
  type : String
  value : String
deriving DecidableEq, Repr

/-- Models one attached file of a gomail message: filename and decoded bytes. -/
structure GoFile where
  filename : String
  bytes : List Nat
deriving DecidableEq, Repr

/-- Models a gomail.v2 `Message`: the header map (as an association list from
field name to value list), the body parts and the attachments. -/
structure GomailMessage where
  headers : List (String × List String)
  parts : List GoPart
  attachments : List GoFile
deriving DecidableEq, Repr

/-- The empty gomail message (`gomail.NewMessage()`), before any setter runs. -/
def emptyMessage : GomailMessage :=
  { headers := [], parts := [], attachments := [] }

/-- Replace the value stored under `key` in an association list, or append the
binding if the key is absent (the behaviour of a Go map assignment). -/
def upsert : List (String × List String) → String → List String → List (String × List String)
  | [], key, v => [(key, v)]
  | (k, w) :: rest, key, v =>
    if k = key then (key, v) :: rest else (k, w) :: upsert rest key v

/-- Look up a header field in the association list. -/
def lookupHeader : List (String × List String) → String → Option (List String)
  | [], _ => none
  | (k, v) :: rest, key => if k = key then some v else lookupHeader rest key

/-- Models gomail.v2 `Message.SetHeader`: `m.header[field] = value` — the new
value list REPLACES any previously stored value for that field. -/
def setHeader (m : GomailMessage) (field : String) (value : List String) : GomailMessage :=
  { m with headers := upsert m.headers field value }

/-- Models gomail.v2 `Message.SetBody`: `m.parts = []*part{...}` — the single
new part REPLACES all previously set parts. -/
def setBody (m : GomailMessage) (contentType value : String) : GomailMessage :=
  { m with parts := [{ type := contentType, value := value }] }

/-- Models gomail.v2 `Message.Attach` with a copy function writing the given
bytes: the file is appended to the message's attachment list. -/
def attachFile (m : GomailMessage) (filename : String) (bytes : List Nat) : GomailMessage :=
  { m with attachments := m.attachments ++ [{ filename := filename, bytes := bytes }] }

/-- Models gomail.v2 `Message.FormatAddress`: an empty name yields the bare
address (no angle brackets); otherwise the name is quoted and followed by
` <address>`. (The model covers names that need no MIME word-encoding and no
backslash escaping, which is all the development evaluates it on.) -/
def formatAddress (address name : String) : String :=
  if name = "" then address
  else "\"" ++ name ++ "\" <" ++ address ++ ">"

/-- Models gomail.v2 `Dialer`: host, port, credentials and the SSL flag (the
source only ever touches `SSL`; `TLSConfig` is only ever set to nil, which is
behaviourally the default, so it is not modelled). -/
structure GoDialer where
  host : String
  port : Int
  username : String
  password : String
  ssl : Bool
deriving DecidableEq, Repr

/-- Models gomail.v2 `NewDialer`: fills the fields and sets `SSL` to
`port == 465`. -/
def newDialer (host : String) (port : Int) (username password : String) : GoDialer :=
  { host := host, port := port, username := username, password := password,
    ssl := port == 465 }

/-- Value of one character in the standard base64 alphabet, if any. -/
def b64Val (c : Char) : Option Nat :=
  if 'A' ≤ c ∧ c ≤ 'Z' then some (c.toNat - 'A'.toNat)
  else if 'a' ≤ c ∧ c ≤ 'z' then some (c.toNat - 'a'.toNat + 26)
  else if '0' ≤ c ∧ c ≤ '9' then some (c.toNat - '0'.toNat + 52)
  else if c = '+' then some 62
  else if c = '/' then some 63
  else none

/-- Decode a run of 4-character base64 quanta; `=` padding may close the final
quantum only. Returns `none` on any malformed input, like Go's decoder. -/
def decodeQuanta : List Char → Option (List Nat)
  | [] => some []
  | c1 :: c2 :: c3 :: c4 :: rest =>
    match b64Val c1, b64Val c2 with
    | some v1, some v2 =>
      if c3 = '=' then
        if c4 = '=' ∧ rest = [] then some [v1 * 4 + v2 / 16] else none
      else
        match b64Val c3 with
        | some v3 =>
          if c4 = '=' then
            if rest = [] then some [v1 * 4 + v2 / 16, (v2 % 16) * 16 + v3 / 4] else none
          else
            match b64Val c4 with
            | some v4 =>
              (decodeQuanta rest).map
                (fun tl => (v1 * 4 + v2 / 16) :: ((v2 % 16) * 16 + v3 / 4) :: ((v3 % 4) * 64 + v4) :: tl)
            | none => none
        | none => none
    | _, _ => none
  | _ => none

/-- Models Go `base64.StdEncoding.DecodeString`: CR and LF are ignored, the
remaining text must consist of 4-character quanta over the standard alphabet
with `=` padding allowed only at the very end; `none` models the
`CorruptInputError` case. (Go's default decoder is non-strict: nonzero unused
trailing bits are accepted, as here, where they are simply dropped.) -/
def goBase64Decode (s : String) : Option (List Nat) :=
  decodeQuanta (s.data.filter (fun c => c ≠ '\r' && c ≠ '\n'))

/-- Syntactic validity of an integer literal for Go `strconv.Atoi` (ParseInt,
base 10): an optional sign followed by at least one decimal digit. -/
def isIntSyntax (s : String) : Bool :=
  match s.data with
  | [] => false
  | c :: rest =>
    let ds := if c = '-' ∨ c = '+' then rest else c :: rest
    ds ≠ [] && ds.all Char.isDigit

/-- Numeric value of a list of decimal digits. -/
def digitsVal (ds : List Char) : Nat :=
  ds.foldl (fun acc c => acc * 10 + (c.toNat - '0'.toNat)) 0

/-- Models Go `strconv.Atoi` on a 64-bit platform: returns the parsed value and
a success flag. A syntax error yields `(0, false)`; a value outside the int64
range yields the clamped bound and `false` (Go's `ErrRange` behaviour). The
source discards the flag (`smtpPort, _ := strconv.Atoi(...)`). -/
def goAtoi (s : String) : Int × Bool :=
  if isIntSyntax s then
    let neg := s.data.head? = some '-'
    let ds := match s.data with
      | c :: rest => if c = '-' ∨ c = '+' then rest else c :: rest
      | [] => []
    let n : Int := Int.ofNat (digitsVal ds)
    let v : Int := if neg then -n else n
    if v > 9223372036854775807 then (9223372036854775807, false)
    else if v < -9223372036854775808 then (-9223372036854775808, false)
    else (v, true)
  else (0, false)

/-- Source: `formatAddressList` (main.go lines 246–252): each address is
rendered with `fmt.Sprintf("%s <%s>", addr.Name, addr.Email)` — the `<>`
wrapper is always present, even for an empty name — and the entries are joined
with `", "`. -/
def formatAddressList (addresses : List EmailAddress) : String :=
  String.intercalate ", " (addresses.map (fun addr => addr.name ++ " <" ++ addr.email ++ ">"))

/-- The content section written by `renderMessage` (main.go lines 233–237): for
each content item in array order, a `Content-Type:` marker line, a blank line,
the content text and a blank line. -/
def contentBlock (content : List ContentItem) : String :=
  String.join (content.map (fun c => "Content-Type: " ++ c.type ++ "\n\n" ++ c.value ++ "\n\n"))

/-- Lines 211–219 of `renderMessage`: `From`, `To`, optional `CC`/`BCC` (only
when the respective list is non-empty) and `Subject`. -/
def renderPre (mailBody : MailSendBody) (p : Personalization) : String :=
  ("From: " ++ mailBody.from_.name ++ " <" ++ mailBody.from_.email ++ ">\n") ++
  ("To: " ++ formatAddressList p.to_ ++ "\n") ++
  (if p.cc.length > 0 then "CC: " ++ formatAddressList p.cc ++ "\n" else "") ++
  (if p.bcc.length > 0 then "BCC: " ++ formatAddressList p.bcc ++ "\n" else "") ++
  ("Subject: " ++ p.subject ++ "\n")

/-- Lines 221–225 of `renderMessage`: the `Reply-To` line from the
personalization's `reply_to` if present, else from the request-level `reply_to`
if present, else nothing. -/
def renderReply (mailBody : MailSendBody) (p : Personalization) : String :=
  match p.reply_to with
  | some r => "Reply-To: " ++ r.name ++ " <" ++ r.email ++ ">\n"
  | none =>
    match mailBody.reply_to with
    | some r => "Reply-To: " ++ r.name ++ " <" ++ r.email ++ ">\n"
    | none => ""

/-- Lines 227–241 of `renderMessage`: custom headers, a blank separator line,
the content blocks and one summary line per attachment. -/
def renderPost (mailBody : MailSendBody) (p : Personalization) : String :=
  String.join (p.headers.map (fun kv => kv.1 ++ ": " ++ kv.2 ++ "\n")) ++
  "\n" ++
  contentBlock mailBody.content ++
  String.join (mailBody.attachments.map
    (fun a => "Attachment: " ++ a.filename ++ " (Type: " ++ a.type ++ ")\n"))

/-- Source: `renderMessage` (main.go lines 208–244), as the concatenation of
the three segments above in source order. -/
def renderMessage (mailBody : MailSendBody) (p : Personalization) : String :=
  renderPre mailBody p ++ renderReply mailBody p ++ renderPost mailBody p

/-- Lines 162–187 of `sendEmails`: assemble the gomail message for one
personalization — `From`, then one `SetHeader` call per `To`/`Cc`/`Bcc`
address, `Subject`, the `Reply-To` precedence branch, the custom headers and
one `SetBody` call per content item. -/
def buildCore (mailBody : MailSendBody) (p : Personalization) : GomailMessage :=
  let m := emptyMessage
  let m := setHeader m "From" [formatAddress mailBody.from_.email mailBody.from_.name]
  let m := p.to_.foldl (fun m a => setHeader m "To" [formatAddress a.email a.name]) m
  let m := p.cc.foldl (fun m a => setHeader m "Cc" [formatAddress a.email a.name]) m
  let m := p.bcc.foldl (fun m a => setHeader m "Bcc" [formatAddress a.email a.name]) m
  let m := setHeader m "Subject" [p.subject]
  let m :=
    match p.reply_to with
    | some r => setHeader m "Reply-To" [formatAddress r.email r.name]
    | none =>
      match mailBody.reply_to with
      | some r => setHeader m "Reply-To" [formatAddress r.email r.name]
      | none => m
  let m := p.headers.foldl (fun m kv => setHeader m kv.1 [kv.2]) m
  let m := mailBody.content.foldl (fun m c => setBody m c.type c.value) m
  m

/-- Lines 189–198 of `sendEmails`: base64-decode and attach every
request-level attachment in order; a decode failure aborts with an error (Go
wraps the decoder's error as `failed to decode attachment content: %v`; the
model uses a fixed suffix since no claim inspects it). -/
def attachAll (m : GomailMessage) : List Attachment → Except String GomailMessage
  | [] => .ok m
  | a :: rest =>
    match goBase64Decode a.content with
    | none => .error "failed to decode attachment content: illegal base64 data"
    | some bytes => attachAll (attachFile m a.filename bytes) rest

/-- The full message assembly for one personalization (main.go lines 162–198):
headers and body, then attachments, which may fail. -/
def buildMessage (mailBody : MailSendBody) (p : Personalization) : Except String GomailMessage :=
  attachAll (buildCore mailBody p) mailBody.attachments

/-- The environment the send path reads (main.go lines 140–144): the five
`SMTP_*` variables, all strings. -/
structure SmtpEnv where
  smtpHost : String
  smtpUser : String
  smtpPassword : String
  smtpPort : String
  smtpEncrypt : String
deriving DecidableEq, Repr

/-- Line 146 of `sendEmails`: the dialer is built from the environment; the
integer-parse error of `SMTP_PORT` is discarded (`smtpPort, _ :=
strconv.Atoi(...)`), so a failed parse silently yields port 0. -/
def mkDialer (env : SmtpEnv) : GoDialer :=
  newDialer env.smtpHost (goAtoi env.smtpPort).1 env.smtpUser env.smtpPassword

/-- The environment's response to the i-th `DialAndSend` call of a request:
given the dialer, the zero-based call index and the message, `none` means the
message was delivered and `some e` means the dial/auth/send failed with error
text `e`. gomail's `DialAndSend` opens a fresh connection to the relay, sends
the message and closes the connection on every call. -/
def DialOracle : Type :=
  GoDialer → Nat → GomailMessage → Option String

/-- Lines 161–203 of `sendEmails`: iterate over the personalizations in order;
for each, assemble the message (returning the assembly error if any, with no
dial), then call `DialAndSend`; on a dial/send failure return the wrapped
error immediately. Returns the final error (or `none`) together with the trace
of messages actually handed to `DialAndSend`, in call order. -/
def sendLoop (dial : DialOracle) (d : GoDialer) (mailBody : MailSendBody) :
    List Personalization → Nat → Option String × List GomailMessage
  | [], _ => (none, [])
  | p :: rest, i =>
    match buildMessage mailBody p with
    | .error e => (some e, [])
    | .ok m =>
      match dial d i m with
      | some e => (some ("failed to send email: " ++ e), [m])
      | none =>
        let r := sendLoop dial d mailBody rest (i + 1)
        (r.1, m :: r.2)

/-- Source: `sendEmails` (main.go lines 139–206): build the dialer from the
environment, apply the `SMTP_ENCRYPT` switch (`SSL` sets the SSL flag, `TLS`
and `PLAIN` both clear it, anything else is an immediate configuration error
with nothing sent), then run the per-personalization loop. -/
def sendEmails (env : SmtpEnv) (dial : DialOracle) (mailBody : MailSendBody) :
    Option String × List GomailMessage :=
  let d := mkDialer env
  if env.smtpEncrypt = "SSL" then
    sendLoop dial { d with ssl := true } mailBody mailBody.personalizations 0
  else if env.smtpEncrypt = "TLS" then
    sendLoop dial { d with ssl := false } mailBody mailBody.personalizations 0
  else if env.smtpEncrypt = "PLAIN" then
    sendLoop dial { d with ssl := false } mailBody mailBody.personalizations 0
  else
    (some ("invalid SMTP_ENCRYPT value: " ++ env.smtpEncrypt), [])

/-- The body of an HTTP response: empty (202), plain text (`http.Error`), or
the JSON object `\x7b"data": [...]\x7d` that `json.NewEncoder(w).Encode`
writes for the dry-run map — modelled structurally by its string list. -/
inductive RespBody where
  | empty : RespBody
  | text : String → RespBody
  | jsonData : List String → RespBody
deriving DecidableEq, Repr

/-- An HTTP response: status code and body. -/
structure HttpResponse where
  status : Nat
  body : RespBody
deriving DecidableEq, Repr

/-- Source: `handleSendEmail` (main.go lines 106–137). Inputs: the request
method, the result of decoding the JSON body (`none` models a decode error)
and the raw `dry-run` query parameter (Go's `Query().Get` returns `""` when
absent). The ambient process environment and the SMTP network are passed
explicitly. Returns the response together with the trace of `DialAndSend`
calls made while handling the request. -/
def handleSendEmail (env : SmtpEnv) (dial : DialOracle) (method : String)
    (decoded : Option MailSendBody) (dryRunParam : String) :
    HttpResponse × List GomailMessage :=
  if method ≠ "POST" then
    ({ status := 405, body := .text "Method not allowed" }, [])
  else
    match decoded with
    | none => ({ status := 400, body := .text "Invalid request body" }, [])
    | some mailBody =>
      if dryRunParam = "true" then
        ({ status := 200,
           body := .jsonData (mailBody.personalizations.map (renderMessage mailBody)) }, [])
      else
        let r := sendEmails env dial mailBody
        match r.1 with
        | some e => ({ status := 500, body := .text e }, r.2)
        | none => ({ status := 202, body := .empty }, r.2)

/-! Concrete fixtures used by witnesses and counterexamples. -/

/-- Fixture: a well-formed SMTP environment using TLS. -/
def tlsEnv : SmtpEnv :=
  { smtpHost := "smtp.example.com", smtpUser := "user", smtpPassword := "secret",
    smtpPort := "587", smtpEncrypt := "TLS" }

/-- Fixture: the TLS environment with an unsupported encryption mode. -/
def badEncEnv : SmtpEnv := { tlsEnv with smtpEncrypt := "STARTTLS" }

/-- Fixture: the TLS environment with a non-numeric SMTP port. -/
def badPortEnv : SmtpEnv := { tlsEnv with smtpPort := "not-a-number" }

/-- Fixture: a network in which every DialAndSend call succeeds. -/
def alwaysOk : DialOracle := fun _ _ _ => none

/-- Fixture: a network in which the first DialAndSend call succeeds and every
later call fails with "boom". -/
def failSecond : DialOracle := fun _ i _ => if i = 0 then none else some "boom"

/-- Fixture: a personalization addressed to one recipient. -/
def persA : Personalization :=
  { to_ := [{ name := "B", email := "b@y.com" }], cc := [], bcc := [], subject := "Hello",
    headers := [], dkim_domain := "", dkim_private_key := "", dkim_selector := "",
    reply_to := none, from_ := { name := "", email := "" } }

/-- Fixture: a second personalization addressed to another recipient. -/
def persB : Personalization :=
  { to_ := [{ name := "C", email := "c@z.com" }], cc := [], bcc := [], subject := "Hi",
    headers := [], dkim_domain := "", dkim_private_key := "", dkim_selector := "",
    reply_to := none, from_ := { name := "", email := "" } }

/-- Fixture: a request with two personalizations and one content item. -/
def bodyTwo : MailSendBody :=
  { headers := [], personalizations := [persA, persB], attachments := [], reply_to := none,
    subject := "", from_ := { name := "A", email := "a@x.com" }, mailfrom := none,
    content := [{ type := "text/plain", value := "hi" }] }

/-- Fixture: a request with one personalization and two content items. -/
def bodyC4 : MailSendBody :=
  { headers := [], personalizations := [persA], attachments := [], reply_to := none,
    subject := "", from_ := { name := "A", email := "a@x.com" }, mailfrom := none,
    content := [{ type := "text/plain", value := "first" },
                { type := "text/html", value := "second" }] }

/-- Fixture: the gomail message the send path assembles for `bodyC4`/`persA`. -/
def msgC4 : GomailMessage :=
  { headers := [("From", ["\"A\" <a@x.com>"]), ("To", ["\"B\" <b@y.com>"]),
                ("Subject", ["Hello"])],
    parts := [{ type := "text/html", value := "second" }], attachments := [] }

/-- Fixture: a personalization with two `to` recipients. -/
def persC6 : Personalization :=
  { to_ := [{ name := "A", email := "a@x.com" }, { name := "B", email := "b@y.com" }],
    cc := [], bcc := [], subject := "Hello", headers := [], dkim_domain := "",
    dkim_private_key := "", dkim_selector := "", reply_to := none,
    from_ := { name := "", email := "" } }

/-- Fixture: a request carrying `persC6`. -/
def bodyC6 : MailSendBody :=
  { headers := [], personalizations := [persC6], attachments := [], reply_to := none,
    subject := "", from_ := { name := "A", email := "a@x.com" }, mailfrom := none,
    content := [{ type := "text/plain", value := "hi" }] }

/-- Fixture: a personalization with no `reply_to` but a custom `Reply-To` header. -/
def persC7 : Personalization :=
  { to_ := [{ name := "B", email := "b@y.com" }], cc := [], bcc := [], subject := "Hello",
    headers := [("Reply-To", "boss@x.com")], dkim_domain := "", dkim_private_key := "",
    dkim_selector := "", reply_to := none, from_ := { name := "", email := "" } }

/-- Fixture: a request carrying `persC7`, with no request-level `reply_to`. -/
def bodyC7 : MailSendBody :=
  { headers := [], personalizations := [persC7], attachments := [], reply_to := none,
    subject := "", from_ := { name := "A", email := "a@x.com" }, mailfrom := none,
    content := [] }

/-- Fixture: a request with an attachment whose content is not valid base64. -/
def bodyC8 : MailSendBody :=
  { headers := [], personalizations := [persA],
    attachments := [{ filename := "f.txt", type := "text/plain", content := "!" }],
    reply_to := none, subject := "", from_ := { name := "A", email := "a@x.com" },
    mailfrom := none, content := [] }

/-! Helper lemmas about the header association list and the assembly folds. -/

lemma lookupHeader_upsert_self (l : List (String × List String)) (k : String) (v : List String) :
    lookupHeader (upsert l k v) k = some v := by
  induction l with
  | nil => simp [upsert, lookupHeader]
  | cons hd tl ih =>
    obtain ⟨k0, w⟩ := hd
    by_cases h : k0 = k
    · simp [upsert, lookupHeader, h]
    · simp [upsert, lookupHeader, h, ih]

lemma lookupHeader_upsert_ne (l : List (String × List String)) (k' k : String)
    (v : List String) (h : k' ≠ k) :
    lookupHeader (upsert l k' v) k = lookupHeader l k := by
  induction l with
  | nil => simp [upsert, lookupHeader, h]
  | cons hd tl ih =>
    obtain ⟨k0, w⟩ := hd
    by_cases h0 : k0 = k'
    · subst h0
      simp [upsert, lookupHeader, h]
    · simp [upsert, lookupHeader, h0, ih]

lemma lookupHeader_setHeader_ne (m : GomailMessage) (k' k : String) (v : List String)
    (h : k' ≠ k) :
    lookupHeader (setHeader m k' v).headers k = lookupHeader m.headers k := by
  simp [setHeader, lookupHeader_upsert_ne _ _ _ _ h]

lemma lookupHeader_setHeader_self (m : GomailMessage) (k : String) (v : List String) :
    lookupHeader (setHeader m k v).headers k = some v := by
  simp [setHeader, lookupHeader_upsert_self]

lemma lookupHeader_foldl_setHeader {α : Type} (f : α → String) (g : α → List String)
    (K : String) (xs : List α) (m : GomailMessage) (h : ∀ x ∈ xs, f x ≠ K) :
    lookupHeader (xs.foldl (fun acc x => setHeader acc (f x) (g x)) m).headers K
      = lookupHeader m.headers K := by
  induction xs generalizing m with
  | nil => rfl
  | cons x xs ih =>
    rw [List.foldl_cons, ih _ (fun y hy => h y (List.mem_cons_of_mem _ hy))]
    exact lookupHeader_setHeader_ne _ _ _ _ (h x (List.mem_cons_self _ _))

lemma headers_foldl_setBody (cs : List ContentItem) (m : GomailMessage) :
    (cs.foldl (fun acc c => setBody acc c.type c.value) m).headers = m.headers := by
  induction cs generalizing m with
  | nil => rfl
  | cons c cs ih => rw [List.foldl_cons, ih]; rfl

lemma parts_foldl_setHeader {α : Type} (f : α → String) (g : α → List String)
    (xs : List α) (m : GomailMessage) :
    (xs.foldl (fun acc x => setHeader acc (f x) (g x)) m).parts = m.parts := by
  induction xs generalizing m with
  | nil => rfl
  | cons x xs ih => rw [List.foldl_cons, ih]; rfl

lemma parts_foldl_setBody (cs : List ContentItem) (m : GomailMessage) (cl : ContentItem)
    (h : cs.getLast? = some cl) :
    (cs.foldl (fun acc c => setBody acc c.type c.value) m).parts
      = [{ type := cl.type, value := cl.value }] := by
  induction cs generalizing m with
  | nil => simp at h
  | cons c cs ih =>
    cases cs with
    | nil =>
      simp only [List.getLast?_singleton, Option.some.injEq] at h
      subst h
      rfl
    | cons c2 cs2 =>
      rw [List.foldl_cons]
      exact ih _ (by simpa [List.getLast?_cons_cons] using h)

lemma attachAll_ok_preserves (atts : List Attachment) (m m' : GomailMessage)
    (h : attachAll m atts = .ok m') : m'.headers = m.headers ∧ m'.parts = m.parts := by
  induction atts generalizing m with
  | nil =>
    simp only [attachAll, Except.ok.injEq] at h
    subst h
    exact ⟨rfl, rfl⟩
  | cons a rest ih =>
    simp only [attachAll] at h
    cases hd : goBase64Decode a.content with
    | none => rw [hd] at h; cases h
    | some bs =>
      rw [hd] at h
      obtain ⟨h1, h2⟩ := ih _ h
      exact ⟨h1, h2⟩

lemma attachAll_isOk (atts : List Attachment) (m : GomailMessage)
    (h : ∀ a ∈ atts, (goBase64Decode a.content).isSome) :
    ∃ m', attachAll m atts = .ok m' := by
  induction atts generalizing m with
  | nil => exact ⟨m, rfl⟩
  | cons a rest ih =>
    have ha := h a (List.mem_cons_self _ _)
    cases hd : goBase64Decode a.content with
    | none => rw [hd] at ha; cases ha
    | some bs =>
      obtain ⟨m', hm'⟩ := ih (attachFile m a.filename bs)
        (fun x hx => h x (List.mem_cons_of_mem _ hx))
      exact ⟨m', by simp only [attachAll, hd]; exact hm'⟩

lemma attachAll_isError (atts : List Attachment) (m : GomailMessage)
    (h : ∃ a ∈ atts, goBase64Decode a.content = none) :
    ∃ e, attachAll m atts = .error e := by
  induction atts generalizing m with
  | nil => simp at h
  | cons a rest ih =>
    cases hd : goBase64Decode a.content with
    | none =>
      exact ⟨"failed to decode attachment content: illegal base64 data",
        by simp only [attachAll, hd]⟩
    | some bs =>
      obtain ⟨a', ha', hba'⟩ := h
      rcases List.mem_cons.mp ha' with rfl | htl
      · rw [hd] at hba'; cases hba'
      · obtain ⟨e, he⟩ := ih (attachFile m a.filename bs) ⟨a', htl, hba'⟩
        exact ⟨e, by simp only [attachAll, hd]; exact he⟩

lemma buildMessage_isOk (mailBody : MailSendBody) (p : Personalization)
    (h : ∀ a ∈ mailBody.attachments, (goBase64Decode a.content).isSome) :
    ∃ m, buildMessage mailBody p = .ok m :=
  attachAll_isOk _ _ h

lemma length_filterMap_of_isSome {α β : Type} (f : α → Option β) (xs : List α)
    (h : ∀ x ∈ xs, (f x).isSome) : (xs.filterMap f).length = xs.length := by
  induction xs with
  | nil => rfl
  | cons x xs ih =>
    have hx := h x (List.mem_cons_self _ _)
    cases hfx : f x with
    | none => rw [hfx] at hx; cases hx
    | some y =>
      simp [List.filterMap_cons, hfx, ih (fun z hz => h z (List.mem_cons_of_mem _ hz))]

lemma sendLoop_all_ok (dial : DialOracle) (d : GoDialer) (mailBody : MailSendBody)
    (hdial : ∀ d' i m, dial d' i m = none) :
    ∀ (ps : List Personalization) (i0 : Nat),
    (∀ p ∈ ps, ∃ m, buildMessage mailBody p = .ok m) →
    sendLoop dial d mailBody ps i0 =
      (none, ps.filterMap (fun p => (buildMessage mailBody p).toOption)) := by
  intro ps
  induction ps with
  | nil => intro i0 _; rfl
  | cons p rest ih =>
    intro i0 hok
    obtain ⟨m, hm⟩ := hok p (List.mem_cons_self _ _)
    simp only [sendLoop, hm, hdial, List.filterMap_cons, Except.toOption,
      ih (i0 + 1) (fun q hq => hok q (List.mem_cons_of_mem _ hq))]

lemma sendLoop_fail (dial : DialOracle) (d : GoDialer) (mailBody : MailSendBody) (e : String) :
    ∀ (ps : List Personalization) (i0 k : Nat), 1 ≤ k → k ≤ ps.length →
    (∀ p ∈ ps, ∃ m, buildMessage mailBody p = .ok m) →
    (∀ j, j < k - 1 → ∀ d' m, dial d' (i0 + j) m = none) →
    (∀ d' m, dial d' (i0 + (k - 1)) m = some e) →
    sendLoop dial d mailBody ps i0 =
      (some ("failed to send email: " ++ e),
       (ps.take k).filterMap (fun p => (buildMessage mailBody p).toOption)) := by
  intro ps
  induction ps with
  | nil => intro i0 k hk hkl _ _ _; simp at hkl; omega
  | cons p rest ih =>
    intro i0 k hk hkl hok hsucc hfail
    obtain ⟨m, hm⟩ := hok p (List.mem_cons_self _ _)
    by_cases hk1 : k = 1
    · subst hk1
      have hd : dial d i0 m = some e := by
        have := hfail d m
        simpa using this
      simp [sendLoop, hm, hd, Except.toOption]
    · have hk2 : 2 ≤ k := by omega
      have hd : dial d i0 m = none := by
        have := hsucc 0 (by omega) d m
        simpa using this
      have hsucc' : ∀ j, j < (k - 1) - 1 → ∀ d' m', dial d' ((i0 + 1) + j) m' = none := by
        intro j hj d' m'
        have he : (i0 + 1) + j = i0 + (j + 1) := by omega
        rw [he]
        exact hsucc (j + 1) (by omega) d' m'
      have hfail' : ∀ d' m', dial d' ((i0 + 1) + ((k - 1) - 1)) m' = some e := by
        intro d' m'
        have he : (i0 + 1) + ((k - 1) - 1) = i0 + (k - 1) := by omega
        rw [he]
        exact hfail d' m'
      have hrest := ih (i0 + 1) (k - 1) (by omega) (by simp at hkl; omega)
        (fun q hq => hok q (List.mem_cons_of_mem _ hq)) hsucc' hfail'
      have hkeq : k = (k - 1) + 1 := by omega
      rw [hkeq, List.take_succ_cons]
      simp only [sendLoop, hm, hd, hrest, List.filterMap_cons, Except.toOption]

/-! Claim theorems. -/

/-- C1: for every request whose body decodes as a MailSendRequest and whose
dry-run query parameter equals the literal string "true", the handler returns
HTTP 200 with a JSON object whose data array contains, in personalization
order, the rendered text of each personalization, and no SMTP connection is
ever attempted — the trace of DialAndSend calls is empty and the SMTP sender
is never invoked. -/
theorem c1_dry_run_no_smtp (env : SmtpEnv) (dial : DialOracle) (mailBody : MailSendBody) :
    handleSendEmail env dial "POST" (some mailBody) "true"
      = ({ status := 200,
           body := .jsonData (mailBody.personalizations.map (renderMessage mailBody)) }, []) := by
  simp [handleSendEmail]

/-- C3: for every request to the send endpoint: a non-POST method yields 405;
a POST whose body fails to decode yields 400; a non-dry-run POST for which
sending returns an error yields 500 with the error's text as the plain body;
and a non-dry-run POST for which every personalization is sent yields 202 with
an empty body. -/
theorem c3_status_codes (env : SmtpEnv) (dial : DialOracle) :
    (∀ method decoded dryRunParam, method ≠ "POST" →
      handleSendEmail env dial method decoded dryRunParam
        = ({ status := 405, body := .text "Method not allowed" }, [])) ∧
    (∀ dryRunParam,
      handleSendEmail env dial "POST" none dryRunParam
        = ({ status := 400, body := .text "Invalid request body" }, [])) ∧
    (∀ mailBody dryRunParam e, dryRunParam ≠ "true" →
      (sendEmails env dial mailBody).1 = some e →
      (handleSendEmail env dial "POST" (some mailBody) dryRunParam).1
        = { status := 500, body := .text e }) ∧
    (∀ mailBody dryRunParam, dryRunParam ≠ "true" →
      (sendEmails env dial mailBody).1 = none →
      (handleSendEmail env dial "POST" (some mailBody) dryRunParam).1
        = { status := 202, body := .empty }) := by
  refine ⟨?_, ?_, ?_, ?_⟩
  · intro method decoded dryRunParam h
    simp [handleSendEmail, h]
  · intro dryRunParam
    simp [handleSendEmail]
  · intro mailBody dryRunParam e hdry hsend
    simp [handleSendEmail, hdry, hsend]
  · intro mailBody dryRunParam hdry hsend
    simp [handleSendEmail, hdry, hsend]

/-- Witness for C3: each of the four handler outcomes at a concrete input. -/
theorem c3_witness :
    handleSendEmail tlsEnv alwaysOk "GET" none ""
      = ({ status := 405, body := .text "Method not allowed" }, []) ∧
    handleSendEmail tlsEnv alwaysOk "POST" none ""
      = ({ status := 400, body := .text "Invalid request body" }, []) ∧
    (handleSendEmail badEncEnv alwaysOk "POST" (some bodyTwo) "").1
      = { status := 500, body := .text "invalid SMTP_ENCRYPT value: STARTTLS" } ∧
    (handleSendEmail tlsEnv alwaysOk "POST" (some bodyTwo) "").1
      = { status := 202, body := .empty } :=
  ⟨(c3_status_codes tlsEnv alwaysOk).1 "GET" none "" (by decide),
   (c3_status_codes tlsEnv alwaysOk).2.1 "",
   (c3_status_codes badEncEnv alwaysOk).2.2.1 bodyTwo "" _ (by decide) (by rfl),
   (c3_status_codes tlsEnv alwaysOk).2.2.2 bodyTwo "" (by decide) (by rfl)⟩

/-- C9: for every non-dry-run request, if the SMTP_ENCRYPT configuration value
is any string other than SSL, TLS or PLAIN, sendEmails returns a configuration
error immediately with zero send attempts (the DialAndSend trace is empty, so
no dial ever occurs), and the handler responds 500. -/
theorem c9_bad_encrypt_no_attempts (env : SmtpEnv) (dial : DialOracle) (mailBody : MailSendBody)
    (h1 : env.smtpEncrypt ≠ "SSL") (h2 : env.smtpEncrypt ≠ "TLS")
    (h3 : env.smtpEncrypt ≠ "PLAIN") :
    sendEmails env dial mailBody
      = (some ("invalid SMTP_ENCRYPT value: " ++ env.smtpEncrypt), []) ∧
    (∀ dryRunParam, dryRunParam ≠ "true" →
      handleSendEmail env dial "POST" (some mailBody) dryRunParam
        = ({ status := 500,
             body := .text ("invalid SMTP_ENCRYPT value: " ++ env.smtpEncrypt) }, [])) := by
  have hs : sendEmails env dial mailBody
      = (some ("invalid SMTP_ENCRYPT value: " ++ env.smtpEncrypt), []) := by
    simp [sendEmails, h1, h2, h3]
  refine ⟨hs, ?_⟩
  intro dryRunParam hdry
  simp [handleSendEmail, hdry, hs]

/-- Witness for C9: the unsupported mode STARTTLS at a concrete request. -/
theorem c9_witness :
    sendEmails badEncEnv alwaysOk bodyTwo
      = (some ("invalid SMTP_ENCRYPT value: " ++ "STARTTLS"), []) ∧
    handleSendEmail badEncEnv alwaysOk "POST" (some bodyTwo) ""
      = ({ status := 500,
           body := .text ("invalid SMTP_ENCRYPT value: " ++ "STARTTLS") }, []) :=
  ⟨(c9_bad_encrypt_no_attempts badEncEnv alwaysOk bodyTwo
      (by decide) (by decide) (by decide)).1,
   (c9_bad_encrypt_no_attempts badEncEnv alwaysOk bodyTwo
      (by decide) (by decide) (by decide)).2 "" (by decide)⟩

/-- C10: for every non-dry-run request, an SMTP_PORT value that is not a valid
integer is never itself reported as an error: the integer-parse failure is
discarded, the SMTP dialer is constructed with port 0, and — with a supported
encryption mode, decodable attachments and a network that accepts every dial —
sendEmails still succeeds, so the misconfiguration can surface only as a dial
failure, never as a port-validation error. -/
theorem c10_port_parse_discarded (env : SmtpEnv) (dial : DialOracle) (mailBody : MailSendBody)
    (hport : isIntSyntax env.smtpPort = false) :
    (mkDialer env).port = 0 ∧
    ((env.smtpEncrypt = "SSL" ∨ env.smtpEncrypt = "TLS" ∨ env.smtpEncrypt = "PLAIN") →
     (∀ a ∈ mailBody.attachments, (goBase64Decode a.content).isSome) →
     (∀ d i m, dial d i m = none) →
     (sendEmails env dial mailBody).1 = none) := by
  constructor
  · simp [mkDialer, newDialer, goAtoi, hport]
  · intro hEnc hAtt hdial
    have hok : ∀ p ∈ mailBody.personalizations, ∃ m, buildMessage mailBody p = .ok m :=
      fun p _ => buildMessage_isOk mailBody p hAtt
    rcases hEnc with h | h | h <;>
      simp [sendEmails, h,
        sendLoop_all_ok dial _ mailBody hdial mailBody.personalizations 0 hok]

/-- Witness for C10: the port string "not-a-number" yields dialer port 0 and a
fully successful send. -/
theorem c10_witness :
    (mkDialer badPortEnv).port = 0 ∧
    (sendEmails badPortEnv alwaysOk bodyTwo).1 = none :=
  ⟨(c10_port_parse_discarded badPortEnv alwaysOk bodyTwo (by decide)).1,
   (c10_port_parse_discarded badPortEnv alwaysOk bodyTwo (by decide)).2
     (Or.inr (Or.inl rfl)) (by simp [bodyTwo]) (fun _ _ _ => rfl)⟩

/-- Counterexample to C5 as stated: a successfully completed non-dry-run
request with two personalizations makes two DialAndSend calls — gomail's
DialAndSend opens its own connection on every call, and the source calls it
once per personalization inside the loop — so the number of connections is
not one per request. -/
theorem c5_counterexample :
    (sendEmails tlsEnv alwaysOk bodyTwo).1 = none ∧
    (sendEmails tlsEnv alwaysOk bodyTwo).2.length = 2 ∧
    (sendEmails tlsEnv alwaysOk bodyTwo).2.length ≠ 1 := by
  exact ⟨rfl, rfl, by decide⟩

/-- C5 (amended): for every non-dry-run request that completes successfully,
one SMTP connection is established per personalization — the DialAndSend trace
has exactly N entries for N personalizations — not once per request. -/
theorem c5_amended_dial_per_personalization (env : SmtpEnv) (dial : DialOracle)
    (mailBody : MailSendBody)
    (hEnc : env.smtpEncrypt = "SSL" ∨ env.smtpEncrypt = "TLS" ∨ env.smtpEncrypt = "PLAIN")
    (hAtt : ∀ a ∈ mailBody.attachments, (goBase64Decode a.content).isSome)
    (hdial : ∀ d i m, dial d i m = none) :
    (sendEmails env dial mailBody).1 = none ∧
    (sendEmails env dial mailBody).2.length = mailBody.personalizations.length := by
  have hok : ∀ p ∈ mailBody.personalizations, ∃ m, buildMessage mailBody p = .ok m :=
    fun p _ => buildMessage_isOk mailBody p hAtt
  have hlen := length_filterMap_of_isSome (fun p => (buildMessage mailBody p).toOption)
    mailBody.personalizations
    (fun p hp => by obtain ⟨m, hm⟩ := hok p hp; simp [hm, Except.toOption])
  rcases hEnc with h | h | h <;>
    simp [sendEmails, h,
      sendLoop_all_ok dial _ mailBody hdial mailBody.personalizations 0 hok, hlen]

/-- Witness for the amended C5: two personalizations, two DialAndSend calls. -/
theorem c5_witness :
    (sendEmails tlsEnv alwaysOk bodyTwo).1 = none ∧
    (sendEmails tlsEnv alwaysOk bodyTwo).2.length = bodyTwo.personalizations.length :=
  c5_amended_dial_per_personalization tlsEnv alwaysOk bodyTwo
    (Or.inr (Or.inl rfl)) (by simp [bodyTwo]) (fun _ _ _ => rfl)

/-- C2: for every non-dry-run request with N personalizations (all of whose
attachments decode and whose encryption mode is supported), if the SMTP send
fails on personalization k (1-indexed) after the first k-1 deliveries
succeeded, then the DialAndSend trace consists of exactly the messages built
for personalizations 1..k (the first k-1 delivered, the k-th the failing
attempt), personalizations k+1..N are never attempted, and sendEmails returns
the wrapped error immediately; nothing is rolled back. -/
theorem c2_fail_fast_on_personalization_k (env : SmtpEnv) (dial : DialOracle)
    (mailBody : MailSendBody) (k : Nat) (e : String)
    (hEnc : env.smtpEncrypt = "SSL" ∨ env.smtpEncrypt = "TLS" ∨ env.smtpEncrypt = "PLAIN")
    (hAtt : ∀ a ∈ mailBody.attachments, (goBase64Decode a.content).isSome)
    (hk1 : 1 ≤ k) (hkN : k ≤ mailBody.personalizations.length)
    (hsucc : ∀ j, j < k - 1 → ∀ d m, dial d j m = none)
    (hfail : ∀ d m, dial d (k - 1) m = some e) :
    sendEmails env dial mailBody
      = (some ("failed to send email: " ++ e),
         (mailBody.personalizations.take k).filterMap
           (fun p => (buildMessage mailBody p).toOption)) ∧
    (sendEmails env dial mailBody).2.length = k := by
  have hok : ∀ p ∈ mailBody.personalizations, ∃ m, buildMessage mailBody p = .ok m :=
    fun p _ => buildMessage_isOk mailBody p hAtt
  have hsucc0 : ∀ j, j < k - 1 → ∀ d' m', dial d' (0 + j) m' = none := by
    intro j hj d' m'
    rw [Nat.zero_add]
    exact hsucc j hj d' m'
  have hfail0 : ∀ d' m', dial d' (0 + (k - 1)) m' = some e := by
    intro d' m'
    rw [Nat.zero_add]
    exact hfail d' m'
  have hmain : sendEmails env dial mailBody
      = (some ("failed to send email: " ++ e),
         (mailBody.personalizations.take k).filterMap
           (fun p => (buildMessage mailBody p).toOption)) := by
    rcases hEnc with h | h | h <;>
      simp [sendEmails, h,
        sendLoop_fail dial _ mailBody e mailBody.personalizations 0 k hk1 hkN hok
          hsucc0 hfail0]
  refine ⟨hmain, ?_⟩
  rw [hmain]
  have hlen := length_filterMap_of_isSome (fun p => (buildMessage mailBody p).toOption)
    (mailBody.personalizations.take k)
    (fun p hp => by
      obtain ⟨m, hm⟩ := hok p (List.take_subset k mailBody.personalizations hp)
      simp [hm, Except.toOption])
  rw [hlen, List.length_take]
  omega

/-- Witness for C2: with two personalizations and a network that accepts the
first call and fails the second with "boom", the trace is exactly the two
built messages and the wrapped error is returned. -/
theorem c2_witness :
    sendEmails tlsEnv failSecond bodyTwo
      = (some ("failed to send email: " ++ "boom"),
         (bodyTwo.personalizations.take 2).filterMap
           (fun p => (buildMessage bodyTwo p).toOption)) ∧
    (sendEmails tlsEnv failSecond bodyTwo).2.length = 2 :=
  c2_fail_fast_on_personalization_k tlsEnv failSecond bodyTwo 2 "boom"
    (Or.inr (Or.inl rfl)) (by simp [bodyTwo]) (by decide) (by decide)
    (by
      intro j hj d m
      have hj0 : j = 0 := by omega
      subst hj0
      rfl)
    (fun d m => rfl)

lemma lookupHeader_foldl_setHeader_const {α : Type} (key : String) (g : α → List String)
    (K : String) (xs : List α) (m : GomailMessage) (h : key ≠ K) :
    lookupHeader (xs.foldl (fun acc x => setHeader acc key (g x)) m).headers K
      = lookupHeader m.headers K := by
  induction xs generalizing m with
  | nil => rfl
  | cons x xs ih =>
    rw [List.foldl_cons, ih]
    exact lookupHeader_setHeader_ne _ _ _ _ h

lemma buildCore_lookup_replyTo (mailBody : MailSendBody) (p : Personalization)
    (hK : ∀ kv ∈ p.headers, kv.1 ≠ "Reply-To") :
    lookupHeader (buildCore mailBody p).headers "Reply-To"
      = (match p.reply_to with
         | some r => some [formatAddress r.email r.name]
         | none =>
           match mailBody.reply_to with
           | some r => some [formatAddress r.email r.name]
           | none => none) := by
  simp only [buildCore]
  rw [headers_foldl_setBody,
    lookupHeader_foldl_setHeader (fun kv => kv.1) (fun kv => [kv.2]) "Reply-To" p.headers _ hK]
  cases hr : p.reply_to with
  | some r => simp [lookupHeader_setHeader_self]
  | none =>
    cases hb : mailBody.reply_to with
    | some r => simp [lookupHeader_setHeader_self]
    | none =>
      rw [lookupHeader_setHeader_ne _ _ _ _ (by decide),
        lookupHeader_foldl_setHeader_const "Bcc"
          (fun a => [formatAddress a.email a.name]) "Reply-To" p.bcc _ (by decide),
        lookupHeader_foldl_setHeader_const "Cc"
          (fun a => [formatAddress a.email a.name]) "Reply-To" p.cc _ (by decide),
        lookupHeader_foldl_setHeader_const "To"
          (fun a => [formatAddress a.email a.name]) "Reply-To" p.to_ _ (by decide),
        lookupHeader_setHeader_ne _ _ _ _ (by decide)]
      rfl

/-- Counterexample to C7 as stated: with both reply_to fields absent but a
custom personalization header named Reply-To, a Reply-To header does appear,
in the assembled send-path message and in the dry-run rendering (the custom
header loop runs after the reply_to branch and reintroduces the field). -/
theorem c7_counterexample :
    persC7.reply_to = none ∧ bodyC7.reply_to = none ∧
    ((buildMessage bodyC7 persC7).toOption.map (fun m => lookupHeader m.headers "Reply-To"))
      = some (some ["boss@x.com"]) ∧
    (∃ pre post, renderMessage bodyC7 persC7 = pre ++ "Reply-To: boss@x.com\n" ++ post) :=
  ⟨rfl, rfl, rfl,
   ⟨"From: A <a@x.com>\nTo: B <b@y.com>\nSubject: Hello\n", "\n", by decide⟩⟩

/-- C7 (amended): for every request/personalization pair whose custom headers
do not use the Reply-To key, in both the send path and the dry-run renderer:
if the personalization's reply_to is set, Reply-To carries the
personalization's value even when the request-level reply_to is also set; if
only the request-level reply_to is set, Reply-To carries that value; and if
neither is set, no Reply-To header is emitted (the send-path header map has no
Reply-To entry and the rendering equals the reply-to-free segments). -/
theorem c7_reply_to_precedence (mailBody : MailSendBody) (p : Personalization)
    (hK : ∀ kv ∈ p.headers, kv.1 ≠ "Reply-To") :
    (∀ r, p.reply_to = some r →
      lookupHeader (buildCore mailBody p).headers "Reply-To"
        = some [formatAddress r.email r.name] ∧
      ∃ pre post, renderMessage mailBody p
        = pre ++ ("Reply-To: " ++ r.name ++ " <" ++ r.email ++ ">\n") ++ post) ∧
    (p.reply_to = none → ∀ r, mailBody.reply_to = some r →
      lookupHeader (buildCore mailBody p).headers "Reply-To"
        = some [formatAddress r.email r.name] ∧
      ∃ pre post, renderMessage mailBody p
        = pre ++ ("Reply-To: " ++ r.name ++ " <" ++ r.email ++ ">\n") ++ post) ∧
    (p.reply_to = none → mailBody.reply_to = none →
      lookupHeader (buildCore mailBody p).headers "Reply-To" = none ∧
      renderMessage mailBody p = renderPre mailBody p ++ renderPost mailBody p) := by
  refine ⟨?_, ?_, ?_⟩
  · intro r hr
    constructor
    · rw [buildCore_lookup_replyTo mailBody p hK, hr]
    · exact ⟨renderPre mailBody p, renderPost mailBody p,
        by simp [renderMessage, renderReply, hr]⟩
  · intro hr r hb
    constructor
    · rw [buildCore_lookup_replyTo mailBody p hK, hr, hb]
    · exact ⟨renderPre mailBody p, renderPost mailBody p,
        by simp [renderMessage, renderReply, hr, hb]⟩
  · intro hr hb
    constructor
    · rw [buildCore_lookup_replyTo mailBody p hK, hr, hb]
    · simp [renderMessage, renderReply, hr, hb, String.empty_append]

/-- Witness for the amended C7: all three cases at concrete inputs — a
personalization reply_to overriding a request-level one, a request-level
fallback, and full absence. -/
theorem c7_witness :
    (lookupHeader
        (buildCore
          { bodyTwo with reply_to := some { name := "R", email := "r@x.com" } }
          { persA with reply_to := some { name := "P", email := "p@x.com" } }).headers
        "Reply-To"
      = some [formatAddress "p@x.com" "P"]) ∧
    (lookupHeader
        (buildCore
          { bodyTwo with reply_to := some { name := "R", email := "r@x.com" } }
          persA).headers
        "Reply-To"
      = some [formatAddress "r@x.com" "R"]) ∧
    (lookupHeader (buildCore bodyTwo persA).headers "Reply-To" = none ∧
      renderMessage bodyTwo persA = renderPre bodyTwo persA ++ renderPost bodyTwo persA) :=
  ⟨((c7_reply_to_precedence
      { bodyTwo with reply_to := some { name := "R", email := "r@x.com" } }
      { persA with reply_to := some { name := "P", email := "p@x.com" } }
      (by simp [persA])).1
      { name := "P", email := "p@x.com" } rfl).1,
   ((c7_reply_to_precedence
      { bodyTwo with reply_to := some { name := "R", email := "r@x.com" } }
      persA (by simp [persA])).2.1
      rfl { name := "R", email := "r@x.com" } rfl).1,
   (c7_reply_to_precedence bodyTwo persA (by simp [persA])).2.2 rfl rfl⟩

/-- Counterexample to C4 as stated: for a request with two content items, the
message handed to the SMTP sender carries only the last item — gomail's
SetBody replaces the body on every call — so the sent body is not the
concatenation of all content items with their markers. -/
theorem c4_counterexample :
    ((buildMessage bodyC4 persA).toOption.map GomailMessage.parts)
      = some [{ type := "text/html", value := "second" }] ∧
    contentBlock bodyC4.content ≠ "second" := by
  exact ⟨rfl, by decide⟩

/-- C4 (amended): the dry-run rendering contains the concatenation of all
content items in array order, each preceded by its own Content-Type marker;
the message handed to the SMTP sender instead carries exactly one part — the
last content item's type and text — because each SetBody call replaces the
body. -/
theorem c4_amended_content_handling (mailBody : MailSendBody) (p : Personalization) :
    (∃ pre post, renderMessage mailBody p = pre ++ contentBlock mailBody.content ++ post) ∧
    (∀ cl, mailBody.content.getLast? = some cl →
      ∀ m, buildMessage mailBody p = .ok m →
        m.parts = [{ type := cl.type, value := cl.value }]) := by
  constructor
  · refine ⟨renderPre mailBody p ++ renderReply mailBody p ++
      String.join (p.headers.map (fun kv => kv.1 ++ ": " ++ kv.2 ++ "\n")) ++ "\n",
      String.join (mailBody.attachments.map
        (fun a => "Attachment: " ++ a.filename ++ " (Type: " ++ a.type ++ ")\n")), ?_⟩
    simp [renderMessage, renderPost, String.append_assoc]
  · intro cl hcl m hm
    rw [(attachAll_ok_preserves _ _ _ hm).2]
    simp only [buildCore]
    exact parts_foldl_setBody _ _ _ hcl

/-- Witness for the amended C4: at the two-content-item fixture, the rendering
contains both blocks while the sent message carries only the html item. -/
theorem c4_witness :
    (∃ pre post, renderMessage bodyC4 persA = pre ++ contentBlock bodyC4.content ++ post) ∧
    msgC4.parts = [{ type := "text/html", value := "second" }] :=
  ⟨(c4_amended_content_handling bodyC4 persA).1,
   (c4_amended_content_handling bodyC4 persA).2
     { type := "text/html", value := "second" } rfl msgC4 rfl⟩

/-- C6 (code bug): at a personalization with two recipients, the send path
keeps only the LAST address in the To header — the loop calls gomail's
SetHeader once per address and each call replaces the previous value — and an
address whose name is empty is formatted by gomail without the angle-bracket
wrapper, while the dry-run rendering joins one "Name <email>" entry per
address as the claim describes. -/
theorem c6_to_header_last_wins :
    ((buildMessage bodyC6 persC6).toOption.map (fun m => lookupHeader m.headers "To"))
      = some (some ["\"B\" <b@y.com>"]) ∧
    (∃ pre post, renderMessage bodyC6 persC6
      = pre ++ "To: A <a@x.com>, B <b@y.com>\n" ++ post) ∧
    formatAddress "x@y.com" "" = "x@y.com" := by
  refine ⟨rfl, ⟨"From: A <a@x.com>\n",
    "Subject: Hello\n\nContent-Type: text/plain\n\nhi\n\n", by decide⟩, by decide⟩

/-- C8: for every non-dry-run request with at least one personalization and
containing an attachment whose content field is not valid base64, sending
aborts for the entire request with an error — the failure is not scoped to one
personalization — and the handler responds 500 with that error text. -/
theorem c8_bad_attachment_500 (env : SmtpEnv) (dial : DialOracle) (mailBody : MailSendBody)
    (dryRunParam : String)
    (hbad : ∃ a ∈ mailBody.attachments, goBase64Decode a.content = none)
    (hne : mailBody.personalizations ≠ [])
    (hdry : dryRunParam ≠ "true") :
    ∃ e tr, sendEmails env dial mailBody = (some e, tr) ∧
      handleSendEmail env dial "POST" (some mailBody) dryRunParam
        = ({ status := 500, body := .text e }, tr) := by
  have hsend : ∃ e tr, sendEmails env dial mailBody = (some e, tr) := by
    cases hps : mailBody.personalizations with
    | nil => exact absurd hps hne
    | cons p rest =>
      obtain ⟨e, he⟩ := attachAll_isError mailBody.attachments (buildCore mailBody p) hbad
      have hloop : ∀ d i0, sendLoop dial d mailBody (p :: rest) i0 = (some e, []) := by
        intro d i0
        simp [sendLoop, buildMessage, he]
      by_cases h1 : env.smtpEncrypt = "SSL"
      · exact ⟨e, [], by simp [sendEmails, h1, hps, hloop]⟩
      · by_cases h2 : env.smtpEncrypt = "TLS"
        · exact ⟨e, [], by simp [sendEmails, h1, h2, hps, hloop]⟩
        · by_cases h3 : env.smtpEncrypt = "PLAIN"
          · exact ⟨e, [], by simp [sendEmails, h1, h2, h3, hps, hloop]⟩
          · exact ⟨"invalid SMTP_ENCRYPT value: " ++ env.smtpEncrypt, [],
              by simp [sendEmails, h1, h2, h3]⟩
  obtain ⟨e, tr, he⟩ := hsend
  exact ⟨e, tr, he, by simp [handleSendEmail, hdry, he]⟩

/-- Witness for C8: the request with the non-base64 attachment "!" yields an
error and a 500 response. -/
theorem c8_witness :
    ∃ e tr, sendEmails tlsEnv alwaysOk bodyC8 = (some e, tr) ∧
      handleSendEmail tlsEnv alwaysOk "POST" (some bodyC8) ""
        = ({ status := 500, body := .text e }, tr) :=
  c8_bad_attachment_500 tlsEnv alwaysOk bodyC8 "" (by decide) (by decide) (by decide)
